import Mathlib

/-!
Verification development for mod_reticle_light_toggle.py, a World of Tanks
client mod that toggles the gun marker (reticle) color on right mouse button
presses.  The definitions below are a shallow embedding of the modules
classes: the configuration store (class _ModConfig), the color controller
(class _ReticleColorController) and the right-click interception layer
(class _RightClickHook).  Logging calls (LOG_NOTE, LOG_CURRENT_EXCEPTION)
have no observable effect on program state and are omitted; exceptions of
backend collaborators are modelled by explicit raise flags in the
environment, and the fact that the source catches them is reflected by the
embedded functions returning ordinary values on those paths.
-/

namespace ReticleMod

/-! ## Backend environment of the color controller

The controller talks to two collaborators: a session-scoped crosshair
controller (reached through sessionProvider.shared.crosshair) and the
settings core (settingsCore.options).  Both have a versioned, duck-typed
surface, modelled by presence flags; each backend call that the source
wraps in a try block carries a raise flag telling whether the call throws.
-/

/-- Crosshair controller object as probed by _applyGunMarkerColor: it may
expose a modern setOverrideReticleColor method or a legacy setReticleColor
method, and either call may raise. -/
structure CrosshairObj where
  hasSetOverrideReticleColor : Bool
  setOverrideRaises : Bool
  hasSetReticleColor : Bool
  setReticleRaises : Bool
deriving DecidableEq

/-- Value returned by colorSetting.getSystemValue(): in the live client this
is typically a per-context dict mapping context names to color strings, but
nothing guarantees that shape; a non-dict value is kept opaque. -/
inductive SettingsValue where
  | dict (entries : List (String × String))
  | other (tag : Nat)
deriving DecidableEq

/-- The GUN_MARKER_COLOR setting object, with getSystemValue,
setSystemValue and apply members; each call may raise. -/
structure SettingObj where
  systemValue : SettingsValue
  getRaises : Bool
  setRaises : Bool
  applyRaises : Bool
deriving DecidableEq

/-- The settingsCore.options object; getSetting(GUN_MARKER_COLOR) may
return None, modelled by an Option result. -/
structure OptionsObj where
  getSetting : Option SettingObj
deriving DecidableEq

/-- The settings core dependency; its options attribute may be None. -/
structure SettingsCoreObj where
  options : Option OptionsObj
deriving DecidableEq

/-- Backend environment visible to one apply attempt.  sessionProvider is
None when the dependency is unavailable; when present, its shared.crosshair
attribute may itself be absent or None (inner Option). -/
structure Env where
  sessionProvider : Option (Option CrosshairObj)
  settingsCore : Option SettingsCoreObj
deriving DecidableEq

/-- Controller reached in _applyGunMarkerColor lines 129-131: None when the
session provider is None, otherwise getattr(provider.shared, crosshair,
None). -/
def crosshairOf (env : Env) : Option CrosshairObj :=
  match env.sessionProvider with
  | none => none
  | some shared => shared

/-- One observable call made to a backend collaborator during an apply
attempt.  Traces of these calls let the theorems speak about which backend
strategies were invoked. -/
inductive BackendCall where
  | setOverrideReticleColor (color : String)
  | setReticleColor (color : String)
  | getSystemValue
  | setSystemValue (value : SettingsValue)
  | applySetting
deriving DecidableEq

/-- True exactly on a legacy setReticleColor call (strategy 2). -/
def isSetReticleCall : BackendCall → Bool
  | .setReticleColor _ => true
  | _ => false

/-- In-place overwrite of every context color performed by the loop
for key in values: values[key] = hexColor, which runs only when the system
value is a dict; a non-dict value is left untouched. -/
def overwriteAll (hexColor : String) : SettingsValue → SettingsValue
  | .dict entries => .dict (entries.map (fun kv => (kv.1, hexColor)))
  | .other tag => .other tag

/-- Embedding of _ReticleColorController._applyThroughSettings (lines
147-167).  The whole body sits in one try block: a raise from any of the
three setting calls is caught and the function returns False.  The trace
records the calls that were issued, including the one that raised. -/
def applyThroughSettings (env : Env) (hexColor : String) :
    Bool × List BackendCall :=
  match env.settingsCore with
  | none => (false, [])
  | some core =>
    match core.options with
    | none => (false, [])
    | some opts =>
      match opts.getSetting with
      | none => (false, [])
      | some setting =>
        if setting.getRaises then (false, [.getSystemValue])
        else
          let values := overwriteAll hexColor setting.systemValue
          if setting.setRaises then
            (false, [.getSystemValue, .setSystemValue values])
          else if setting.applyRaises then
            (false, [.getSystemValue, .setSystemValue values, .applySetting])
          else
            (true, [.getSystemValue, .setSystemValue values, .applySetting])

/-- Embedding of _ReticleColorController._applyGunMarkerColor (lines
128-145).  Strategies 1 and 2 share a single try block: a raise from the
modern setOverrideReticleColor call falls through to the settings fallback
directly, without attempting the legacy setReticleColor call. -/
def applyGunMarkerColor (env : Env) (hexColor : String) :
    Bool × List BackendCall :=
  match crosshairOf env with
  | some ctl =>
    if ctl.hasSetOverrideReticleColor then
      if ctl.setOverrideRaises then
        let r := applyThroughSettings env hexColor
        (r.1, .setOverrideReticleColor hexColor :: r.2)
      else (true, [.setOverrideReticleColor hexColor])
    else if ctl.hasSetReticleColor then
      if ctl.setReticleRaises then
        let r := applyThroughSettings env hexColor
        (r.1, .setReticleColor hexColor :: r.2)
      else (true, [.setReticleColor hexColor])
    else applyThroughSettings env hexColor
  | none => applyThroughSettings env hexColor

/-! ## Controller state

The controller claims quantify over configurations whose four fields carry
the types named by the data model (enabled and startWithAlternateColor are
booleans, the two colors are strings); the untyped JSON level of the
configuration store is modelled separately below for the load and save
claims. -/

/-- The four configuration fields as seen by the controller. -/
structure ModConfigView where
  enabled : Bool
  baseColor : String
  alternateColor : String
  startWithAlternateColor : Bool
deriving DecidableEq

/-- Transient state of _ReticleColorController: the held config, the
useAlternate toggle position, the isInstalled guard and the pendingUpdate
retry flag. -/
structure CtlState where
  config : ModConfigView
  useAlternate : Bool
  isInstalled : Bool
  pendingUpdate : Bool
deriving DecidableEq

/-- Color selection of applyCurrentColor line 117: alternateColor when
useAlternate is set, baseColor otherwise. -/
def selectColor (s : CtlState) : String :=
  if s.useAlternate then s.config.alternateColor else s.config.baseColor

/-- Embedding of applyCurrentColor (lines 116-122): push the selected color
through the backend chain; on failure set pendingUpdate, on success clear
it.  The second component is the trace of backend calls issued. -/
def applyCurrentColor (env : Env) (s : CtlState) :
    CtlState × List BackendCall :=
  let r := applyGunMarkerColor env (selectColor s)
  ({ s with pendingUpdate := !r.1 }, r.2)

/-- Embedding of toggle (lines 104-109): no-op when the config is disabled,
otherwise flip useAlternate and then run applyCurrentColor on the flipped
state. -/
def toggle (env : Env) (s : CtlState) : CtlState × List BackendCall :=
  if !s.config.enabled then (s, [])
  else applyCurrentColor env { s with useAlternate := !s.useAlternate }

/-- Embedding of onAvatarReady (lines 124-126), the retry hook the entry
point drives from the session lifecycle: reapply only when pendingUpdate is
set. -/
def onAvatarReady (env : Env) (s : CtlState) : CtlState × List BackendCall :=
  if s.pendingUpdate then applyCurrentColor env s else (s, [])

/-- Embedding of refreshFromConfig (lines 111-114): replace the config,
reseed useAlternate from startWithAlternateColor and reapply. -/
def refreshFromConfig (env : Env) (s : CtlState) (config : ModConfigView) :
    CtlState × List BackendCall :=
  applyCurrentColor env
    { s with config := config, useAlternate := config.startWithAlternateColor }

/-- Embedding of the controller install (lines 94-99): idempotent, and on
first install apply immediately when enabled. -/
def ctlInstall (env : Env) (s : CtlState) : CtlState × List BackendCall :=
  if s.isInstalled then (s, [])
  else
    let s1 := { s with isInstalled := true }
    if s1.config.enabled then applyCurrentColor env s1 else (s1, [])

/-- State after n successive toggle calls against a fixed environment. -/
def togglesFrom (env : Env) (s : CtlState) : Nat → CtlState
  | 0 => s
  | n + 1 => (toggle env (togglesFrom env s n)).1

/-! ## Configuration store

The persistence level works on JSON documents as the json module returns
them; a loaded value of any JSON type is written into the store field
unchecked, so the stored fields are modelled as JSON values.  The overlay
loop of load sits outside the try block of the file read, so its Python
failure modes (TypeError from the in operator or from indexing on non-dict
documents) are modelled with an Except result. -/

/-- JSON documents as returned by json.load. -/
inductive Json where
  | obj (entries : List (String × Json))
  | arr (entries : List Json)
  | str (s : String)
  | num (n : Int)
  | bool (b : Bool)
  | null

/-- Python exceptions that the overlay loop of load can raise. -/
inductive PyError where
  | typeError
  | keyError
deriving DecidableEq

/-- The four recognized configuration keys of DEFAULT_CONFIG. -/
inductive ConfigKey where
  | enabled
  | baseColor
  | alternateColor
  | startWithAlternateColor
deriving DecidableEq

/-- Key strings of DEFAULT_CONFIG. -/
def keyName : ConfigKey → String
  | .enabled => "enabled"
  | .baseColor => "baseColor"
  | .alternateColor => "alternateColor"
  | .startWithAlternateColor => "startWithAlternateColor"

/-- The configuration store with its four slots; values are raw JSON
because load performs no validation. -/
structure ModConfig where
  enabled : Json
  baseColor : Json
  alternateColor : Json
  startWithAlternateColor : Json

/-- Field read by key. -/
def getField (c : ModConfig) : ConfigKey → Json
  | .enabled => c.enabled
  | .baseColor => c.baseColor
  | .alternateColor => c.alternateColor
  | .startWithAlternateColor => c.startWithAlternateColor

/-- Field write by key, the setattr of the overlay loop. -/
def setField (c : ModConfig) : ConfigKey → Json → ModConfig
  | .enabled, v => { c with enabled := v }
  | .baseColor, v => { c with baseColor := v }
  | .alternateColor, v => { c with alternateColor := v }
  | .startWithAlternateColor, v => { c with startWithAlternateColor := v }

/-- DEFAULT_CONFIG (lines 33-38), the state of a fresh store before load
runs. -/
def defaultConfig : ModConfig :=
  { enabled := .bool true
    baseColor := .str "#FFCC00"
    alternateColor := .str "#00FFDE"
    startWithAlternateColor := .bool false }

/-- Contiguous substring test on character lists, the semantics the Python
in operator applies to a pair of strings. -/
def charsInfix : List Char → List Char → Bool
  | needle, [] => needle.isEmpty
  | needle, h :: t => needle.isPrefixOf (h :: t) || charsInfix needle t

/-- True when one JSON array element equals the string k, the comparison
the Python in operator performs element-wise on lists. -/
def jsonElemIsStr (k : String) : Json → Bool
  | .str s => s == k
  | _ => false

/-- Semantics of the Python expression key in data for each JSON document
shape: membership for objects, element equality for arrays, substring test
for strings, and TypeError for numbers, booleans and null, which are not
iterable. -/
def jsonContains (data : Json) (k : String) : Except PyError Bool :=
  match data with
  | .obj entries => .ok (entries.any (fun kv => kv.1 == k))
  | .arr entries => .ok (entries.any (jsonElemIsStr k))
  | .str s => .ok (charsInfix k.data s.data)
  | .num _ => .error .typeError
  | .bool _ => .error .typeError
  | .null => .error .typeError

/-- Semantics of the Python expression data[key] with a string key: object
lookup succeeds, arrays and strings raise TypeError (indices must be
integers), the remaining shapes raise TypeError as unsubscriptable. -/
def jsonIndex (data : Json) (k : String) : Except PyError Json :=
  match data with
  | .obj entries =>
    match entries.find? (fun kv => kv.1 == k) with
    | some kv => .ok kv.2
    | none => .error .keyError
  | _ => .error .typeError

/-- One iteration of the overlay loop of load (lines 67-69): when the key
is present in the parsed document, write its value into the store. -/
def loadKey (c : ModConfig) (data : Json) (k : ConfigKey) :
    Except PyError ModConfig := do
  let present ← jsonContains data (keyName k)
  if present then
    let v ← jsonIndex data (keyName k)
    pure (setField c k v)
  else
    pure c

/-- Observable condition of the config file when load runs: absent,
unreadable or unparseable (open or json.load raises inside the try block),
or successfully parsed content. -/
inductive ConfigFile where
  | missing
  | unreadable
  | content (data : Json)

/-- Embedding of _ModConfig.load (lines 57-69).  A missing file and a
read or parse failure both leave the store untouched and return normally;
a parsed document is overlaid key by key, and because the overlay loop is
outside the try block its TypeError escapes load.  The iteration order of
the DEFAULT_CONFIG dict is taken in source order; no theorem below depends
on it.  The _ensureConfigDirectory call only touches the filesystem and
swallows its own errors, so it does not appear in the state model. -/
def ModConfig.load (c : ModConfig) (file : ConfigFile) :
    Except PyError ModConfig :=
  match file with
  | .missing => .ok c
  | .unreadable => .ok c
  | .content data => do
    let c1 ← loadKey c data .enabled
    let c2 ← loadKey c1 data .baseColor
    let c3 ← loadKey c2 data .alternateColor
    loadKey c3 data .startWithAlternateColor

/-- The document _ModConfig.save (lines 71-78) writes: the four fields
keyed by their names, in the deterministic sorted key order that
json.dump with sort_keys=True produces. -/
def ModConfig.save (c : ModConfig) : Json :=
  .obj [("alternateColor", c.alternateColor), ("baseColor", c.baseColor),
        ("enabled", c.enabled), ("startWithAlternateColor", c.startWithAlternateColor)]

/-- A well-formed saved document with exactly one recognized key removed,
used to state the missing-key half of the round-trip claim. -/
def saveWithout (c : ModConfig) (k : ConfigKey) : Json :=
  match ModConfig.save c with
  | .obj entries => .obj (entries.filter (fun kv => kv.1 != keyName k))
  | other => other

/-! ## Right-click interception layer

The handleMouseEvent attribute of each control-mode class is a method
value; installing wraps it, and the wrapper carries the captured original
as its dunder original attribute.  Class attributes are modelled as an
association list from class identity to the optional method value (None
standing for a class without the method, which install skips). -/

/-- A method value stored in the handleMouseEvent slot: either an original
handler of some class, or a wrapper carrying the method it captured at
install time. -/
inductive HandlerVal where
  | original (id : Nat)
  | wrapper (inner : HandlerVal)
deriving DecidableEq

/-- The dunder original attribute lookup of uninstall: a wrapper yields the
captured method, anything else yields None. -/
def getOriginalAttr : HandlerVal → Option HandlerVal
  | .wrapper inner => some inner
  | .original _ => none

/-- Class attribute table: class identity paired with its current
handleMouseEvent attribute (none when the class lacks the method). -/
abbrev ClassAttrs := List (Nat × Option HandlerVal)

/-- State of a _RightClickHook together with the classes it can patch. -/
structure HookState where
  attrs : ClassAttrs
  patchedClasses : List Nat
deriving DecidableEq

/-- The loop of _RightClickHook.install (lines 182-198): for each class
with a handleMouseEvent attribute that is not already patched, capture the
current method, replace it by a wrapper over it, and append the class to
the patched list. -/
def installLoop : ClassAttrs → List Nat → ClassAttrs × List Nat
  | [], patched => ([], patched)
  | c :: rest, patched =>
    match c.2 with
    | some h =>
      if c.1 ∈ patched then
        let r := installLoop rest patched
        (c :: r.1, r.2)
      else
        let r := installLoop rest (patched ++ [c.1])
        ((c.1, some (.wrapper h)) :: r.1, r.2)
    | none =>
      let r := installLoop rest patched
      (c :: r.1, r.2)

/-- Embedding of _RightClickHook.install. -/
def RightClickHook.install (s : HookState) : HookState :=
  let r := installLoop s.attrs s.patchedClasses
  { attrs := r.1, patchedClasses := r.2 }

/-- Restoration of one entry in uninstall (lines 202-206): read the current
handler, fetch its dunder original attribute, and write it back when it is
not None. -/
def restoreEntry (c : Nat × Option HandlerVal) : Nat × Option HandlerVal :=
  match c.2 with
  | some h =>
    match getOriginalAttr h with
    | some o => (c.1, some o)
    | none => c
  | none => c

/-- Restore the attribute of the single class with the given identity. -/
def restoreOne (attrs : ClassAttrs) (id : Nat) : ClassAttrs :=
  attrs.map (fun c => if c.1 = id then restoreEntry c else c)

/-- The loop of _RightClickHook.uninstall over the patched classes. -/
def uninstallLoop (patched : List Nat) (attrs : ClassAttrs) : ClassAttrs :=
  match patched with
  | [] => attrs
  | id :: rest => uninstallLoop rest (restoreOne attrs id)

/-- Embedding of _RightClickHook.uninstall (lines 200-207): restore every
patched class, then clear the patched list. -/
def RightClickHook.uninstall (s : HookState) : HookState :=
  { attrs := uninstallLoop s.patchedClasses s.attrs, patchedClasses := [] }

/-- What install would write for one class entry: wrap a present method,
leave an absent one alone.  Used to characterize a fresh install. -/
def wrapIfSome (c : Nat × Option HandlerVal) : Nat × Option HandlerVal :=
  match c.2 with
  | some h => (c.1, some (.wrapper h))
  | none => c

/-- Identity of a class whose method is present, as recorded by a fresh
install in the patched list. -/
def presentId (c : Nat × Option HandlerVal) : Option Nat :=
  match c.2 with
  | some _ => some c.1
  | none => none

/-! ## Mouse events and the wrapper body -/

/-- Designated toggle button.  Keys.KEY_RIGHTMOUSE is an opaque constant of
the host; the numeric value below only stands in for it and no theorem
depends on the value. -/
def KEY_RIGHTMOUSE : Int := 253

/-- A mouse event object as probed by the static method shouldToggle: it
may lack the isButtonDown member, the call may raise, and the button and
key attributes may each be absent (outer Option) or hold None (inner
Option). -/
structure MouseEvent where
  hasIsButtonDown : Bool
  isButtonDownRaises : Bool
  isButtonDownVal : Bool
  button : Option (Option Int)
  key : Option (Option Int)
deriving DecidableEq

/-- The identifier computed at line 215: getattr(event, button,
getattr(event, key, None)). -/
def effectiveButton (me : MouseEvent) : Option Int :=
  match me.button with
  | some v => v
  | none =>
    match me.key with
    | some v => v
    | none => none

/-- Embedding of the static method shouldToggle (lines 209-219): false on a
None event, on a missing or false or raising isButtonDown, and on an
identifier different from the right mouse button; a raise during
inspection is caught and treated as false. -/
def RightClickHook.shouldToggle (ev : Option MouseEvent) : Bool :=
  match ev with
  | none => false
  | some me =>
    if me.hasIsButtonDown then
      if me.isButtonDownRaises then false
      else if me.isButtonDownVal then
        match effectiveButton me with
        | some k => k == KEY_RIGHTMOUSE
        | none => false
      else false
    else false

/-- Embedding of the wrapper body built by makeWrapper (lines 186-195),
with the weak controller reference modelled as an Option over the
controller state and the original handler as a function from events to its
result.  The result triple is the controller state afterwards, the value
the wrapper returns, and whether the original handler was invoked. -/
def RightClickHook.wrapper (env : Env) (ctl : Option CtlState)
    (original : Option MouseEvent → Bool) (ev : Option MouseEvent) :
    Option CtlState × Bool × Bool :=
  if RightClickHook.shouldToggle ev then
    match ctl with
    | some c => (some (toggle env c).1, true, false)
    | none => (none, original ev, true)
  else (ctl, original ev, true)

/-! ## Concrete environments and states used by witnesses and
counterexamples -/

/-- Default configuration as the controller sees it. -/
def cfgDefault : ModConfigView :=
  { enabled := true, baseColor := "#FFCC00", alternateColor := "#00FFDE",
    startWithAlternateColor := false }

/-- Default configuration with the mod disabled. -/
def cfgDisabled : ModConfigView := { cfgDefault with enabled := false }

/-- Installed controller seeded on the base color, nothing pending. -/
def stateDefault : CtlState :=
  { config := cfgDefault, useAlternate := false, isInstalled := true,
    pendingUpdate := false }

/-- Installed controller with the mod disabled. -/
def stateDisabled : CtlState := { stateDefault with config := cfgDisabled }

/-- Installed controller with a deferred update pending. -/
def statePending : CtlState := { stateDefault with pendingUpdate := true }

/-- No session provider and no settings core: every strategy fails. -/
def envAbsent : Env := { sessionProvider := none, settingsCore := none }

/-- Crosshair controller exposing a working modern method. -/
def crossModern : CrosshairObj :=
  { hasSetOverrideReticleColor := true, setOverrideRaises := false,
    hasSetReticleColor := false, setReticleRaises := false }

/-- Environment where strategy 1 succeeds. -/
def envModern : Env :=
  { sessionProvider := some (some crossModern), settingsCore := none }

/-- Crosshair controller whose modern method raises while a working legacy
method is also exposed. -/
def crossOverrideRaises : CrosshairObj :=
  { hasSetOverrideReticleColor := true, setOverrideRaises := true,
    hasSetReticleColor := true, setReticleRaises := false }

/-- Environment where strategy 1 raises, strategy 2 would succeed, and no
settings core is reachable. -/
def envOverrideRaises : Env :=
  { sessionProvider := some (some crossOverrideRaises), settingsCore := none }

/-- Crosshair controller exposing only a raising legacy method. -/
def crossLegacyRaises : CrosshairObj :=
  { hasSetOverrideReticleColor := false, setOverrideRaises := false,
    hasSetReticleColor := true, setReticleRaises := true }

/-- Environment where strategy 2 raises. -/
def envLegacyRaises : Env :=
  { sessionProvider := some (some crossLegacyRaises), settingsCore := none }

/-- Reachable setting whose apply call raises. -/
def settingApplyRaises : SettingObj :=
  { systemValue := .dict [("arcade", "#FFFFFF")], getRaises := false,
    setRaises := false, applyRaises := true }

/-- Options object returning the raising setting. -/
def optsApplyRaises : OptionsObj := { getSetting := some settingApplyRaises }

/-- Settings core holding the raising setting. -/
def coreApplyRaises : SettingsCoreObj := { options := some optsApplyRaises }

/-- Environment whose only backend is the settings fallback and whose apply
call raises. -/
def envSettingApplyRaises : Env :=
  { sessionProvider := none, settingsCore := some coreApplyRaises }

/-- Reachable setting whose system value is not a dict. -/
def settingOther : SettingObj :=
  { systemValue := .other 7, getRaises := false, setRaises := false,
    applyRaises := false }

/-- Environment where only the settings fallback is reachable and the
system value of the setting is not a dict. -/
def envSettingOther : Env :=
  { sessionProvider := none,
    settingsCore := some { options := some { getSetting := some settingOther } } }

/-- Fully reachable working setting holding a per-context dict. -/
def settingDictOk : SettingObj :=
  { systemValue := .dict [("arcade", "#AAAAAA")], getRaises := false,
    setRaises := false, applyRaises := false }

/-- Environment where strategy 1 raises and the settings fallback is
reachable and succeeds. -/
def envOverrideRaisesWithSettings : Env :=
  { sessionProvider := some (some crossOverrideRaises),
    settingsCore := some { options := some { getSetting := some settingDictOk } } }

/-! ## Claim theorems -/

/-- C7: whenever enabled is false, toggle is a no-op: the state, in
particular useAlternate and pendingUpdate, is unchanged, no apply attempt
is made and the trace of backend calls is empty. -/
theorem claim_C7 (env : Env) (s : CtlState) (h : s.config.enabled = false) :
    toggle env s = (s, []) := by
  simp [toggle, h]

/-- Witness for C7 at a concrete disabled state. -/
theorem claim_C7_witness : toggle envAbsent stateDisabled = (stateDisabled, []) :=
  claim_C7 envAbsent stateDisabled rfl

/-- C2: a totally failed apply sets pendingUpdate; a later onAvatarReady
call performs exactly one applyCurrentColor retry when pendingUpdate is set
and nothing when it is clear; the retry clears pendingUpdate exactly when
the retried backend chain succeeds, and any successful apply clears
pendingUpdate. -/
theorem claim_C2 (e eNext eRetry e2 : Env) (s t u v : CtlState)
    (hfail : (applyGunMarkerColor e (selectColor s)).1 = false)
    (hpend : t.pendingUpdate = true)
    (hclear : u.pendingUpdate = false)
    (hsucc : (applyGunMarkerColor e2 (selectColor v)).1 = true) :
    (applyCurrentColor e s).1.pendingUpdate = true
    ∧ onAvatarReady eNext t = applyCurrentColor eNext t
    ∧ onAvatarReady eNext u = (u, [])
    ∧ ((onAvatarReady eRetry (applyCurrentColor e s).1).1.pendingUpdate = false
        ↔ (applyGunMarkerColor eRetry (selectColor s)).1 = true)
    ∧ (applyCurrentColor e2 v).1.pendingUpdate = false := by
  refine ⟨?_, ?_, ?_, ?_, ?_⟩
  · simp [applyCurrentColor, hfail]
  · simp [onAvatarReady, hpend]
  · simp [onAvatarReady, hclear]
  · simp only [selectColor] at hfail
    simp [onAvatarReady, applyCurrentColor, selectColor, hfail]
  · simp [applyCurrentColor, hsucc]

/-- Witness for C2: total failure against the empty environment, retry
against an environment whose modern strategy succeeds. -/
theorem claim_C2_witness :
    (applyCurrentColor envAbsent stateDefault).1.pendingUpdate = true
    ∧ onAvatarReady envAbsent statePending = applyCurrentColor envAbsent statePending
    ∧ onAvatarReady envAbsent stateDefault = (stateDefault, [])
    ∧ ((onAvatarReady envModern (applyCurrentColor envAbsent stateDefault).1).1.pendingUpdate = false
        ↔ (applyGunMarkerColor envModern (selectColor stateDefault)).1 = true)
    ∧ (applyCurrentColor envModern stateDefault).1.pendingUpdate = false :=
  claim_C2 envAbsent envAbsent envModern envModern stateDefault statePending
    stateDefault stateDefault rfl rfl rfl rfl

/-- C1 counterexample: with the modern strategy 1 exposed and raising and a
working legacy strategy 2 exposed on the same controller, the apply issues
no setReticleColor call at all, refuting the claim that the exception leads
to the legacy call of strategy 2 being attempted. -/
theorem claim_C1_counterexample :
    crosshairOf envOverrideRaises = some crossOverrideRaises
    ∧ crossOverrideRaises.hasSetOverrideReticleColor = true
    ∧ crossOverrideRaises.setOverrideRaises = true
    ∧ crossOverrideRaises.hasSetReticleColor = true
    ∧ crossOverrideRaises.setReticleRaises = false
    ∧ applyGunMarkerColor envOverrideRaises "#FFCC00"
        = (false, [.setOverrideReticleColor "#FFCC00"]) :=
  ⟨rfl, rfl, rfl, rfl, rfl, rfl⟩

/-- C1 as amended: a raise from the strategy 1 call is caught and the chain
continues directly with the settings fallback of strategy 3, skipping
strategy 2; a raise from the strategy 2 call, reached only when strategy 1
is not exposed, likewise continues with strategy 3; a raise from the
strategy 3 apply call is caught and the whole apply returns failure rather
than propagating. -/
theorem claim_C1 (e1 e2 e3 : Env) (ctl1 ctl2 : CrosshairObj)
    (core : SettingsCoreObj) (opts : OptionsObj) (st : SettingObj) (c : String)
    (h1 : crosshairOf e1 = some ctl1)
    (h1a : ctl1.hasSetOverrideReticleColor = true)
    (h1b : ctl1.setOverrideRaises = true)
    (h2 : crosshairOf e2 = some ctl2)
    (h2a : ctl2.hasSetOverrideReticleColor = false)
    (h2b : ctl2.hasSetReticleColor = true)
    (h2c : ctl2.setReticleRaises = true)
    (h3 : e3.settingsCore = some core)
    (h3a : core.options = some opts)
    (h3b : opts.getSetting = some st)
    (h3c : st.getRaises = false)
    (h3d : st.setRaises = false)
    (h3e : st.applyRaises = true) :
    applyGunMarkerColor e1 c
      = ((applyThroughSettings e1 c).1,
          .setOverrideReticleColor c :: (applyThroughSettings e1 c).2)
    ∧ applyGunMarkerColor e2 c
      = ((applyThroughSettings e2 c).1,
          .setReticleColor c :: (applyThroughSettings e2 c).2)
    ∧ applyThroughSettings e3 c
      = (false, [.getSystemValue, .setSystemValue (overwriteAll c st.systemValue),
          .applySetting]) := by
  refine ⟨?_, ?_, ?_⟩
  · simp [applyGunMarkerColor, h1, h1a, h1b]
  · simp [applyGunMarkerColor, h2, h2a, h2b, h2c]
  · simp [applyThroughSettings, h3, h3a, h3b, h3c, h3d, h3e]

/-- Witness for the amended C1 at concrete environments for the three raise
scenarios. -/
theorem claim_C1_witness :
    applyGunMarkerColor envOverrideRaises "#AB0012"
      = ((applyThroughSettings envOverrideRaises "#AB0012").1,
          .setOverrideReticleColor "#AB0012"
            :: (applyThroughSettings envOverrideRaises "#AB0012").2)
    ∧ applyGunMarkerColor envLegacyRaises "#AB0012"
      = ((applyThroughSettings envLegacyRaises "#AB0012").1,
          .setReticleColor "#AB0012"
            :: (applyThroughSettings envLegacyRaises "#AB0012").2)
    ∧ applyThroughSettings envSettingApplyRaises "#AB0012"
      = (false, [.getSystemValue,
          .setSystemValue (overwriteAll "#AB0012" settingApplyRaises.systemValue),
          .applySetting]) :=
  claim_C1 envOverrideRaises envLegacyRaises envSettingApplyRaises
    crossOverrideRaises crossLegacyRaises coreApplyRaises optsApplyRaises
    settingApplyRaises "#AB0012" rfl rfl rfl rfl rfl rfl rfl rfl rfl rfl rfl rfl rfl

/-- The settings fallback never issues a legacy setReticleColor call. -/
lemma applyThroughSettings_no_reticle (e : Env) (c : String) :
    (applyThroughSettings e c).2.any isSetReticleCall = false := by
  unfold applyThroughSettings
  repeat' split
  all_goals simp [isSetReticleCall]

/-- C3 counterexample: strategy 1 is reachable and exposed, yet the settings
fallback of strategy 3 is invoked, because the strategy 1 call raises;
this refutes the unconditional claim that strategies 2 and 3 are never
invoked when strategy 1 is reachable. -/
theorem claim_C3_counterexample :
    crosshairOf envOverrideRaisesWithSettings = some crossOverrideRaises
    ∧ crossOverrideRaises.hasSetOverrideReticleColor = true
    ∧ BackendCall.applySetting
        ∈ (applyGunMarkerColor envOverrideRaisesWithSettings "#00FFDE").2 := by
  refine ⟨rfl, rfl, ?_⟩
  decide

/-- C3 as amended: whenever the crosshair controller is reachable and
exposes the modern capability, the legacy strategy 2 is never invoked; and
when the modern call additionally does not raise, it alone is invoked and
neither strategy 2 nor strategy 3 runs.  Only the non-raising case gives
the strict priority claimed; a raising modern call falls through to
strategy 3. -/
theorem claim_C3 (e e2 : Env) (ctl ctl2 : CrosshairObj) (c : String)
    (h : crosshairOf e = some ctl)
    (hcap : ctl.hasSetOverrideReticleColor = true)
    (h2 : crosshairOf e2 = some ctl2)
    (h2cap : ctl2.hasSetOverrideReticleColor = true)
    (h2ok : ctl2.setOverrideRaises = false) :
    (applyGunMarkerColor e c).2.any isSetReticleCall = false
    ∧ applyGunMarkerColor e2 c = (true, [.setOverrideReticleColor c]) := by
  constructor
  · have hnr := applyThroughSettings_no_reticle e c
    cases hov : ctl.setOverrideRaises
      <;> simp [applyGunMarkerColor, h, hcap, hov, isSetReticleCall, hnr]
  · simp [applyGunMarkerColor, h2, h2cap, h2ok]

/-- Witness for the amended C3: the raising scenario issues no legacy call,
the non-raising one invokes exactly the modern method. -/
theorem claim_C3_witness :
    (applyGunMarkerColor envOverrideRaisesWithSettings "#00FFDE").2.any isSetReticleCall = false
    ∧ applyGunMarkerColor envModern "#00FFDE"
        = (true, [.setOverrideReticleColor "#00FFDE"]) :=
  claim_C3 envOverrideRaisesWithSettings envModern crossOverrideRaises
    crossModern "#00FFDE" rfl rfl rfl rfl rfl

/-- C9: the claim that load never raises is false on the code.  A config
file holding the valid JSON document 5 parses fine inside the try block,
but the overlay loop then evaluates the expression key in data outside any
try block and raises TypeError, which escapes load; a missing or unreadable
file, by contrast, is handled as the claim says. -/
theorem claim_C9_bug :
    ModConfig.load defaultConfig (.content (.num 5)) = .error .typeError
    ∧ ModConfig.load defaultConfig .missing = .ok defaultConfig
    ∧ ModConfig.load defaultConfig .unreadable = .ok defaultConfig :=
  ⟨rfl, rfl, rfl⟩

/-- C10: when the settings chain is fully reachable, none of its calls
raise, and the system value of the setting is not a dict, the fallback
still calls setSystemValue with the unchanged original value and then
apply, and returns success, so an apply through this path clears
pendingUpdate even though the requested color was written nowhere. -/
theorem claim_C10 (e : Env) (core : SettingsCoreObj) (opts : OptionsObj)
    (st : SettingObj) (t : Nat) (s : CtlState) (c : String)
    (h1 : e.settingsCore = some core) (h2 : core.options = some opts)
    (h3 : opts.getSetting = some st) (h4 : st.getRaises = false)
    (h5 : st.setRaises = false) (h6 : st.applyRaises = false)
    (h7 : st.systemValue = .other t) (h8 : crosshairOf e = none) :
    applyThroughSettings e c
      = (true, [.getSystemValue, .setSystemValue (.other t), .applySetting])
    ∧ applyGunMarkerColor e c
      = (true, [.getSystemValue, .setSystemValue (.other t), .applySetting])
    ∧ (applyCurrentColor e s).1.pendingUpdate = false := by
  have key : ∀ col : String, applyThroughSettings e col
      = (true, [.getSystemValue, .setSystemValue (.other t), .applySetting]) := by
    intro col
    simp [applyThroughSettings, h1, h2, h3, h4, h5, h6, h7, overwriteAll]
  refine ⟨key c, ?_, ?_⟩
  · simp [applyGunMarkerColor, h8, key c]
  · simp [applyCurrentColor, applyGunMarkerColor, h8, key (selectColor s)]

/-- Witness for C10 at a concrete environment whose setting holds a
non-dict system value. -/
theorem claim_C10_witness :
    applyThroughSettings envSettingOther "#123456"
      = (true, [.getSystemValue, .setSystemValue (.other 7), .applySetting])
    ∧ applyGunMarkerColor envSettingOther "#123456"
      = (true, [.getSystemValue, .setSystemValue (.other 7), .applySetting])
    ∧ (applyCurrentColor envSettingOther stateDefault).1.pendingUpdate = false :=
  claim_C10 envSettingOther { options := some { getSetting := some settingOther } }
    { getSetting := some settingOther } settingOther 7 stateDefault "#123456"
    rfl rfl rfl rfl rfl rfl rfl rfl

/-- Toggling never changes the held configuration. -/
lemma toggle_config (env : Env) (s : CtlState) :
    ((toggle env s).1).config = s.config := by
  cases h : s.config.enabled
  · simp [toggle, h]
  · simp [toggle, h, applyCurrentColor]

/-- A sequence of toggles never changes the held configuration. -/
lemma togglesFrom_config (env : Env) (s : CtlState) (n : Nat) :
    (togglesFrom env s n).config = s.config := by
  induction n with
  | zero => rfl
  | succ n ih => rw [togglesFrom, toggle_config, ih]

/-- An enabled toggle flips useAlternate, whatever the apply outcome. -/
lemma toggle_useAlternate (env : Env) (s : CtlState)
    (h : s.config.enabled = true) :
    ((toggle env s).1).useAlternate = !s.useAlternate := by
  simp [toggle, h, applyCurrentColor]

/-- Parity of a successor modulo two, on the decidable-proposition side. -/
lemma decide_mod_two_succ (n : Nat) :
    decide ((n + 1) % 2 = 1) = !decide (n % 2 = 1) := by
  rcases Nat.mod_two_eq_zero_or_one n with h | h <;> simp [Nat.add_mod, h]

/-- After n enabled toggles, useAlternate is the seed xored with the parity
of n. -/
lemma togglesFrom_useAlternate (env : Env) (s : CtlState)
    (h : s.config.enabled = true) (n : Nat) :
    (togglesFrom env s n).useAlternate
      = Bool.xor s.useAlternate (decide (n % 2 = 1)) := by
  induction n with
  | zero => simp [togglesFrom]
  | succ n ih =>
    have hc : (togglesFrom env s n).config.enabled = true := by
      rw [togglesFrom_config]; exact h
    rw [togglesFrom, toggle_useAlternate env _ hc, ih, decide_mod_two_succ]
    cases s.useAlternate <;> cases hd : decide (n % 2 = 1) <;> rfl

/-- C4: starting from an enabled state, the state after the Nth toggle has
useAlternate equal to the seed xored with the parity of N, so the Nth
toggle selects the alternate color exactly when N is odd for a false seed
and when N is even for a true seed; the Nth toggle flips useAlternate and
only then runs the apply attempt on the flipped state, unconditionally,
and the color selected for that attempt is the alternate color exactly
when the flipped flag is set. -/
theorem claim_C4 (env : Env) (s : CtlState) (n : Nat)
    (hen : s.config.enabled = true) (hn : 1 ≤ n) :
    (togglesFrom env s n).useAlternate
        = Bool.xor s.useAlternate (decide (n % 2 = 1))
    ∧ toggle env (togglesFrom env s (n - 1))
        = applyCurrentColor env
            { togglesFrom env s (n - 1) with
                useAlternate := !(togglesFrom env s (n - 1)).useAlternate }
    ∧ selectColor
        { togglesFrom env s (n - 1) with
            useAlternate := !(togglesFrom env s (n - 1)).useAlternate }
        = (if Bool.xor s.useAlternate (decide (n % 2 = 1))
           then s.config.alternateColor else s.config.baseColor) := by
  obtain ⟨m, rfl⟩ : ∃ m, n = m + 1 :=
    ⟨n - 1, (Nat.succ_pred_eq_of_pos hn).symm⟩
  have hc : (togglesFrom env s m).config = s.config := togglesFrom_config env s m
  have hce : (togglesFrom env s m).config.enabled = true := by rw [hc]; exact hen
  refine ⟨togglesFrom_useAlternate env s hen (m + 1), ?_, ?_⟩
  · simp only [Nat.add_sub_cancel]
    simp [toggle, hce]
  · simp only [Nat.add_sub_cancel]
    simp only [selectColor, hc]
    rw [togglesFrom_useAlternate env s hen m, decide_mod_two_succ]
    cases s.useAlternate <;> cases hd : decide (m % 2 = 1) <;> rfl

/-- Witness for C4 at the default state and N equal to three. -/
theorem claim_C4_witness :
    (togglesFrom envAbsent stateDefault 3).useAlternate
        = Bool.xor stateDefault.useAlternate (decide (3 % 2 = 1))
    ∧ toggle envAbsent (togglesFrom envAbsent stateDefault (3 - 1))
        = applyCurrentColor envAbsent
            { togglesFrom envAbsent stateDefault (3 - 1) with
                useAlternate := !(togglesFrom envAbsent stateDefault (3 - 1)).useAlternate }
    ∧ selectColor
        { togglesFrom envAbsent stateDefault (3 - 1) with
            useAlternate := !(togglesFrom envAbsent stateDefault (3 - 1)).useAlternate }
        = (if Bool.xor stateDefault.useAlternate (decide (3 % 2 = 1))
           then stateDefault.config.alternateColor else stateDefault.config.baseColor) :=
  claim_C4 envAbsent stateDefault 3 rfl (by decide)

/-- C8: saving a store and loading the saved document into a fresh store
restores every field; loading a well-formed saved document from which
exactly one recognized key was removed keeps the default for that key only
and overlays the three present keys. -/
theorem claim_C8 (c : ModConfig) (k : ConfigKey) :
    ModConfig.load defaultConfig (.content (ModConfig.save c)) = .ok c
    ∧ ModConfig.load defaultConfig (.content (saveWithout c k))
        = .ok (setField c k (getField defaultConfig k)) := by
  constructor
  · cases c
    rfl
  · cases c
    cases k <;> rfl

/-- C6: a wrapped handler invokes toggle on the live controller and reports
the event handled without calling the original exactly on events that
classify as a right-mouse-button press; every other event, and a press seen
while the weakly referenced controller has vanished, is delegated unchanged
to the original handler and its result returned.  An event classifies as a
press exactly when it is non-null, exposes a non-raising isButtonDown that
returns true, and its button or key attribute yields the right mouse
button; a raising isButtonDown classifies as no press, and a null event
never toggles. -/
theorem claim_C6 (env : Env) (orig : Option MouseEvent → Bool)
    (me mePress meRaise : MouseEvent) (c : CtlState)
    (ctl2 : Option CtlState) (ev2 : Option MouseEvent)
    (hpress : RightClickHook.shouldToggle (some me) = true)
    (hnot : RightClickHook.shouldToggle ev2 = false)
    (hclass : mePress.hasIsButtonDown = true ∧ mePress.isButtonDownRaises = false
        ∧ mePress.isButtonDownVal = true
        ∧ effectiveButton mePress = some KEY_RIGHTMOUSE)
    (hraise : meRaise.isButtonDownRaises = true) :
    RightClickHook.wrapper env (some c) orig (some me)
        = (some (toggle env c).1, true, false)
    ∧ RightClickHook.wrapper env none orig (some me)
        = (none, orig (some me), true)
    ∧ RightClickHook.wrapper env ctl2 orig ev2 = (ctl2, orig ev2, true)
    ∧ (me.hasIsButtonDown = true ∧ me.isButtonDownRaises = false
        ∧ me.isButtonDownVal = true ∧ effectiveButton me = some KEY_RIGHTMOUSE)
    ∧ RightClickHook.shouldToggle (some mePress) = true
    ∧ RightClickHook.shouldToggle (some meRaise) = false
    ∧ RightClickHook.shouldToggle none = false := by
  refine ⟨?_, ?_, ?_, ?_, ?_, ?_, rfl⟩
  · simp [RightClickHook.wrapper, hpress]
  · simp [RightClickHook.wrapper, hpress]
  · simp [RightClickHook.wrapper, hnot]
  · unfold RightClickHook.shouldToggle at hpress
    cases hA : me.hasIsButtonDown <;> simp [hA] at hpress
    cases hB : me.isButtonDownRaises <;> simp [hB] at hpress
    cases hC : me.isButtonDownVal <;> simp [hC] at hpress
    cases hD : effectiveButton me <;> simp [hD] at hpress
    exact ⟨rfl, rfl, rfl, by rw [hpress]⟩
  · obtain ⟨ha, hb, hc, hd⟩ := hclass
    simp [RightClickHook.shouldToggle, ha, hb, hc, hd]
  · cases hA : meRaise.hasIsButtonDown
      <;> simp [RightClickHook.shouldToggle, hA, hraise]

/-- Original handler standing in for a control-mode method in witnesses. -/
def origFalse : Option MouseEvent → Bool := fun _ => false

/-- Concrete right-mouse-button press event. -/
def mePressW : MouseEvent :=
  { hasIsButtonDown := true, isButtonDownRaises := false,
    isButtonDownVal := true, button := some (some KEY_RIGHTMOUSE), key := none }

/-- Concrete press of a different button. -/
def meOtherW : MouseEvent :=
  { hasIsButtonDown := true, isButtonDownRaises := false,
    isButtonDownVal := true, button := some (some 1), key := none }

/-- Concrete event whose isButtonDown raises. -/
def meRaiseW : MouseEvent :=
  { hasIsButtonDown := true, isButtonDownRaises := true,
    isButtonDownVal := true, button := some (some KEY_RIGHTMOUSE), key := none }

/-- Witness for C6 at concrete events and states. -/
theorem claim_C6_witness :
    RightClickHook.wrapper envAbsent (some stateDefault) origFalse (some mePressW)
        = (some (toggle envAbsent stateDefault).1, true, false)
    ∧ RightClickHook.wrapper envAbsent none origFalse (some mePressW)
        = (none, origFalse (some mePressW), true)
    ∧ RightClickHook.wrapper envAbsent (some stateDefault) origFalse (some meOtherW)
        = (some stateDefault, origFalse (some meOtherW), true)
    ∧ (mePressW.hasIsButtonDown = true ∧ mePressW.isButtonDownRaises = false
        ∧ mePressW.isButtonDownVal = true
        ∧ effectiveButton mePressW = some KEY_RIGHTMOUSE)
    ∧ RightClickHook.shouldToggle (some mePressW) = true
    ∧ RightClickHook.shouldToggle (some meRaiseW) = false
    ∧ RightClickHook.shouldToggle none = false :=
  claim_C6 envAbsent origFalse mePressW mePressW meRaiseW stateDefault
    (some stateDefault) (some meOtherW) rfl rfl ⟨rfl, rfl, rfl, rfl⟩ rfl

/-- Restoring an entry never changes the class identity. -/
lemma restoreEntry_fst (c : Nat × Option HandlerVal) :
    (restoreEntry c).1 = c.1 := by
  rcases c with ⟨id, v⟩
  rcases v with _ | h
  · rfl
  · cases h <;> rfl

/-- The uninstall loop over a duplicate-free patched list acts pointwise:
every entry whose identity is patched is restored once, the rest are left
alone. -/
lemma uninstallLoop_eq (patched : List Nat) (attrs : ClassAttrs)
    (hnd : patched.Nodup) :
    uninstallLoop patched attrs
      = attrs.map (fun c => if c.1 ∈ patched then restoreEntry c else c) := by
  induction patched generalizing attrs with
  | nil => simp [uninstallLoop]
  | cons id rest ih =>
    have hid : id ∉ rest := (List.nodup_cons.mp hnd).1
    have hrest : rest.Nodup := (List.nodup_cons.mp hnd).2
    rw [uninstallLoop, ih (restoreOne attrs id) hrest]
    unfold restoreOne
    rw [List.map_map]
    apply List.map_congr_left
    intro c _
    by_cases h1 : c.1 = id
    · simp [Function.comp, h1, restoreEntry_fst, hid, List.mem_cons]
    · by_cases h2 : c.1 ∈ rest
        <;> simp [Function.comp, h1, h2, List.mem_cons]

/-- Characterization of a fresh install loop when class identities are
duplicate-free and none is patched yet: every present method gets wrapped
exactly once, and the identities of the present methods are appended to the
patched list in order. -/
lemma installLoop_eq (attrs : ClassAttrs) (patched : List Nat)
    (hdis : ∀ c ∈ attrs, c.1 ∉ patched)
    (hnd : (attrs.map Prod.fst).Nodup) :
    installLoop attrs patched
      = (attrs.map wrapIfSome, patched ++ attrs.filterMap presentId) := by
  induction attrs generalizing patched with
  | nil => simp [installLoop]
  | cons c rest ih =>
    rw [List.map_cons, List.nodup_cons] at hnd
    have hnd' : c.1 ∉ rest.map Prod.fst ∧ (rest.map Prod.fst).Nodup := hnd
    have hd : c.1 ∉ patched := hdis c (List.mem_cons_self c rest)
    have hdisr : ∀ d ∈ rest, d.1 ∉ patched :=
      fun d hdm => hdis d (List.mem_cons_of_mem c hdm)
    rcases hc2 : c.2 with _ | h
    · simp only [installLoop, hc2]
      rw [ih patched hdisr hnd'.2]
      simp [wrapIfSome, presentId, hc2]
    · simp only [installLoop, hc2, hd, if_neg]
      have hdis2 : ∀ d ∈ rest, d.1 ∉ patched ++ [c.1] := by
        intro d hdm
        simp only [List.mem_append, List.mem_singleton]
        rintro (hp | heq)
        · exact hdisr d hdm hp
        · exact hnd'.1 (List.mem_map.mpr ⟨d, hdm, heq⟩)
      rw [ih (patched ++ [c.1]) hdis2 hnd'.2]
      simp [wrapIfSome, presentId, hc2, List.append_assoc]

/-- The identities recorded by presentId form a sublist of all class
identities. -/
lemma presentId_sublist (attrs : ClassAttrs) :
    List.Sublist (attrs.filterMap presentId) (attrs.map Prod.fst) := by
  induction attrs with
  | nil => simp
  | cons c rest ih =>
    rcases hc2 : c.2 with _ | h
    · simp only [List.filterMap_cons, List.map_cons, presentId, hc2]
      exact ih.cons c.1
    · simp only [List.filterMap_cons, List.map_cons, presentId, hc2]
      exact ih.cons₂ c.1

/-- C5: from a fresh hook over duplicate-free classes, install wraps each
present handler in exactly one wrapper layer; uninstall then restores on
every wrapped class exactly the original method captured at install time,
returning the attribute table to its initial state; and a further install
produces a state equal to that of a single install, so no nested wrappers
accumulate across install and uninstall cycles. -/
theorem claim_C5 (attrs : ClassAttrs) (hnd : (attrs.map Prod.fst).Nodup) :
    (RightClickHook.install ⟨attrs, []⟩).attrs = attrs.map wrapIfSome
    ∧ RightClickHook.uninstall (RightClickHook.install ⟨attrs, []⟩) = ⟨attrs, []⟩
    ∧ RightClickHook.install (RightClickHook.uninstall (RightClickHook.install ⟨attrs, []⟩))
        = RightClickHook.install ⟨attrs, []⟩ := by
  have hdis : ∀ c ∈ attrs, c.1 ∉ ([] : List Nat) := by simp
  have hinst := installLoop_eq attrs [] hdis hnd
  have hinstall : RightClickHook.install ⟨attrs, []⟩
      = ⟨attrs.map wrapIfSome, attrs.filterMap presentId⟩ := by
    simp [RightClickHook.install, hinst]
  have hpnd : (attrs.filterMap presentId).Nodup :=
    (presentId_sublist attrs).nodup hnd
  have huninst : RightClickHook.uninstall
      ⟨attrs.map wrapIfSome, attrs.filterMap presentId⟩ = ⟨attrs, []⟩ := by
    have hmap : (attrs.map wrapIfSome).map
          (fun c => if c.1 ∈ attrs.filterMap presentId then restoreEntry c else c)
        = attrs := by
      rw [List.map_map]
      have hpt : ∀ c ∈ attrs,
          ((fun c => if c.1 ∈ attrs.filterMap presentId then restoreEntry c else c)
            ∘ wrapIfSome) c = c := by
        intro c hc
        rcases c with ⟨id, v⟩
        rcases hc2 : v with _ | h
        · subst hc2
          have hnotin : id ∉ attrs.filterMap presentId := by
            intro hmem
            obtain ⟨d, hdm, hpd⟩ := List.mem_filterMap.mp hmem
            rcases hd2 : d.2 with _ | hh
            · simp [presentId, hd2] at hpd
            · have hfst : d.1 = id := by simpa [presentId, hd2] using hpd
              have hdc : d = (id, none) :=
                List.inj_on_of_nodup_map hnd hdm hc hfst
              rw [hdc] at hd2
              exact Option.noConfusion hd2
          simp [Function.comp, wrapIfSome, hnotin]
        · subst hc2
          have hin : id ∈ attrs.filterMap presentId :=
            List.mem_filterMap.mpr ⟨(id, some h), hc, by simp [presentId]⟩
          simp [Function.comp, wrapIfSome, hin, restoreEntry, getOriginalAttr]
      calc (attrs.map (_ ∘ wrapIfSome)) = attrs.map id := List.map_congr_left hpt
        _ = attrs := List.map_id attrs
    simp [RightClickHook.uninstall, uninstallLoop_eq _ _ hpnd, hmap]
  refine ⟨by rw [hinstall], by rw [hinstall, huninst], ?_⟩
  rw [hinstall, huninst, hinstall]

/-- Concrete class table for the C5 witness: three classes exposing the
handler and one without it. -/
def attrsW : ClassAttrs :=
  [(0, some (.original 0)), (1, some (.original 1)), (2, none),
   (3, some (.original 3))]

/-- Witness for C5 on the concrete class table. -/
theorem claim_C5_witness :
    (RightClickHook.install ⟨attrsW, []⟩).attrs = attrsW.map wrapIfSome
    ∧ RightClickHook.uninstall (RightClickHook.install ⟨attrsW, []⟩) = ⟨attrsW, []⟩
    ∧ RightClickHook.install (RightClickHook.uninstall (RightClickHook.install ⟨attrsW, []⟩))
        = RightClickHook.install ⟨attrsW, []⟩ :=
  claim_C5 attrsW (by decide)

end ReticleMod
